import Mathlib

/-!
Verification of the sync-ai persona search pipeline.

Shallow embedding of the Python sources under `src/agents/sync_search/`:
`search_preprocessor.py`, `sync_search_agent.py`, `persona_config_loader.py`
and `search_postprocessor.py`.  Pure Python functions become Lean functions;
Python exceptions become `Except PyError`; external effects (the streaming
RPC, the clock, uuid generation, the YAML file) are passed in explicitly as
data.  Times are modelled as rationals, Python floats as `ℚ`.
-/

namespace SyncAI

/-- Python exceptions relevant to the embedded code paths. -/
inductive PyError where
  | nameError (name : String)
  | valueError (msg : String)
  | attributeError (msg : String)
deriving Repr, DecidableEq

/-- Name resolution at the start of a Python statement: looking up a name that
is bound neither in the enclosing scopes nor among the builtins raises
`NameError`.  `scope` lists the names visible to the statement. -/
def evalName (scope : List String) (n : String) : Except PyError Unit :=
  if scope.contains n then Except.ok () else Except.error (PyError.nameError n)

/-- Module-level bindings of `search_preprocessor.py` (its imports
`logging`, `typing` names, `datetime`, `uuid`, `re`, plus the module globals).
The module never imports `time`, and `time` is not a Python builtin. -/
def searchPreprocessorGlobals : List String :=
  ["logging", "Dict", "Any", "List", "Optional", "Tuple", "datetime", "uuid",
   "re", "logger", "SearchQueryPreprocessor", "SearchRequestValidator",
   "SearchConfigurationManager"]

/-! ### Python string primitives

The embedded code uses Python's `lower`, `strip`, `split`, `join`,
`replace`, `startswith` and the `in` operator.  They are implemented here
by structural recursion over the character list of a string, so that every
concrete evaluation reduces inside the kernel. -/

/-- Python `s.lower()` (the embedded strings are ASCII). -/
def pyLower (s : String) : String := String.mk (s.data.map Char.toLower)

/-- Python `s.strip()`: drop leading and trailing whitespace. -/
def pyStrip (s : String) : String :=
  String.mk (((s.data.dropWhile Char.isWhitespace).reverse.dropWhile Char.isWhitespace).reverse)

/-- Split a character list at every character satisfying `p`; the result is
never empty. -/
def splitPred (p : Char → Bool) : List Char → List (List Char)
  | [] => [[]]
  | x :: xs =>
    match splitPred p xs with
    | [] => [[x]]
    | h :: t => if p x then [] :: h :: t else (x :: h) :: t

/-- Python `s.split("\n")`. -/
def pyLines (s : String) : List String :=
  (splitPred (fun c => c = '\n') s.data).map String.mk

/-- Python `sep in l` over character lists. -/
def containsSub : List Char → List Char → Bool
  | [], sep => sep.isEmpty
  | l@(_ :: rest), sep => sep.isPrefixOf l || containsSub rest sep

/-- Python `pat in s`. -/
def strContains (s pat : String) : Bool := containsSub s.data pat.data

/-- The suffix following the first occurrence of `sep`, if any. -/
def afterFirst (sep : List Char) : List Char → Option (List Char)
  | [] => none
  | l@(_ :: rest) =>
    if sep.isPrefixOf l then some (l.drop sep.length) else afterFirst sep rest

/-- Python `s.startswith(pre)`. -/
def pyStartsWith (s pre : String) : Bool := pre.data.isPrefixOf s.data

/-- Python `sep.join(parts)`. -/
def pyJoin (sep : String) : List String → String
  | [] => ""
  | [x] => x
  | x :: y :: rest => x ++ sep ++ pyJoin sep (y :: rest)

/-- Python `s.replace(a, b)` for single characters. -/
def charReplace (a b : Char) (s : String) : String :=
  String.mk (s.data.map (fun c => if c = a then b else c))

/-- Number of non-overlapping occurrences of the two-character sequence
`[a, b]`, scanning left to right (Python `len(s.split(ab)) - 1`). -/
def countSep2 (a b : Char) : List Char → Nat
  | [] => 0
  | [_] => 0
  | x :: y :: rest =>
    if x = a ∧ y = b then 1 + countSep2 a b rest else countSep2 a b (y :: rest)

/-! ### Time-range validation (`search_preprocessor.py`) -/

/-- Lookup of a normalized value in the `valid_ranges` table of
`SearchQueryPreprocessor._validate_time_range` (lines 194-204), with the
default of line 212. -/
def timeRangeTable (normalized : String) : String :=
  if normalized = "7d" then "7d"
  else if normalized = "30d" then "30d"
  else if normalized = "90d" then "90d"
  else if normalized = "6m" then "6m"
  else if normalized = "1y" then "1y"
  else if normalized = "week" then "7d"
  else if normalized = "month" then "30d"
  else if normalized = "quarter" then "90d"
  else if normalized = "year" then "1y"
  else "30d"

/-- `SearchQueryPreprocessor._validate_time_range` (lines 192-212): lowercase
and strip the input, look it up in the synonym table, default to `"30d"`.
The method never raises. -/
def validate_time_range_pre (time_range : String) : String :=
  timeRangeTable (pyStrip (pyLower time_range))

/-- The canonical time-range tokens. -/
def canonicalTimeRanges : List String := ["7d", "30d", "90d", "6m", "1y"]

/-- `SearchRequestValidator.validate_time_range` (lines 466-493): empty input
defaults to `"30d"`, synonyms are mapped, any other value outside the valid
list raises `ValueError`. -/
def validate_time_range_static (time_range : String) : Except PyError String :=
  if time_range = "" then Except.ok "30d"
  else
    let normalized := pyStrip (pyLower time_range)
    if normalized = "week" then Except.ok "7d"
    else if normalized = "month" then Except.ok "30d"
    else if normalized = "quarter" then Except.ok "90d"
    else if normalized = "year" then Except.ok "1y"
    else if canonicalTimeRanges.contains normalized then Except.ok normalized
    else Except.error (PyError.valueError ("Invalid time range: " ++ time_range))

/-- `SearchQueryPreprocessor._get_time_context` (lines 234-243). -/
def get_time_context (time_range : String) : String :=
  if time_range = "7d" then "past week"
  else if time_range = "30d" then "past month"
  else if time_range = "90d" then "past quarter"
  else if time_range = "6m" then "past 6 months"
  else if time_range = "1y" then "past year"
  else "recent period"

/-! ### Persona configuration model (`persona_config_loader.py`) -/

/-- The `output_format` mapping of a persona (keys `structure`, `style`).
`structure` is a Lean keyword, hence the field name `structure_tag`. -/
structure OutputFormatD where
  structure_tag : Option String := none
  style : Option String := none
deriving Repr, DecidableEq

/-- The `instructions` mapping of a persona (keys `primary_role`,
`core_objectives`, `technical_depth`). -/
structure InstrD where
  primary_role : Option String := none
  core_objectives : Option (List String) := none
  technical_depth : Option String := none
deriving Repr, DecidableEq

/-- Raw persona entry as read from the YAML document: every field may be
absent (`persona_data.get(key, default)` in `_parse_personas`). -/
structure PersonaData where
  display_name : Option String := none
  description : Option String := none
  focus_areas : Option (List String) := none
  search_patterns : Option (List String) := none
  topic_categories : Option (List (String × List String)) := none
  search_modifiers : Option (List (String × List String)) := none
  output_format : Option OutputFormatD := none
  instructions : Option InstrD := none
deriving Repr, DecidableEq

/-- Parsed persona configuration: the `PersonaConfig` dataclass
(`persona_config_loader.py`, lines 15-26). -/
structure PersonaConfig where
  name : String
  display_name : String
  description : String
  focus_areas : List String
  search_patterns : List String
  topic_categories : List (String × List String)
  search_modifiers : List (String × List String)
  output_format : OutputFormatD
  instructions : InstrD
deriving Repr, DecidableEq

/-- Python `str.capitalize`-per-word used by `str.title()`: first letter of
each space-separated word uppercased, the rest lowercased (ASCII
approximation of CPython title-casing, adequate for the identifiers used). -/
def pyTitleWord (w : String) : String :=
  match w.toList with
  | [] => ""
  | c :: cs => String.mk (c.toUpper :: cs.map Char.toLower)

/-- Python `s.title()` over space-separated words. -/
def pyTitle (s : String) : String :=
  pyJoin " " (((splitPred (fun c => c = ' ') s.data).map String.mk).map pyTitleWord)

/-- One iteration of the `_parse_personas` loop (lines 274-288): build a
`PersonaConfig` from a raw entry, defaulting every absent field exactly as
the `persona_data.get(...)` calls do. -/
def parsePersona (persona_name : String) (d : PersonaData) : PersonaConfig :=
  { name := persona_name
    display_name := d.display_name.getD (pyTitle (charReplace '_' ' ' persona_name))
    description := d.description.getD ""
    focus_areas := d.focus_areas.getD []
    search_patterns := d.search_patterns.getD []
    topic_categories := d.topic_categories.getD []
    search_modifiers := d.search_modifiers.getD []
    output_format := d.output_format.getD {}
    instructions := d.instructions.getD {} }

/-- Built-in `devops_engineer` profile (`_get_default_config`, lines 62-102). -/
def defaultDevopsEngineer : PersonaData :=
  { display_name := some "DevOps Engineer"
    description := some "Infrastructure and deployment focused AI search"
    focus_areas := some
      ["MLOps platform updates", "AI infrastructure scaling",
       "GPU cluster management", "Container orchestration for AI",
       "AI model deployment tools", "Cost optimization strategies",
       "Monitoring and observability", "CI/CD for AI models",
       "Infrastructure as Code for AI"]
    search_patterns := some
      ["latest MLOps platforms", "GPU infrastructure updates",
       "AI deployment tools", "container AI orchestration",
       "AI model serving platforms", "GPU cost optimization"]
    topic_categories := some
      [("infrastructure", ["GPU clusters", "TPU management", "distributed training"]),
       ("platforms", ["MLOps platforms", "model registries", "experiment tracking"]),
       ("cost_optimization", ["spot instances", "GPU sharing", "resource scheduling"])]
    search_modifiers := some
      [("urgency", ["breaking", "latest", "urgent"]),
       ("implementation", ["how to", "tutorial", "guide"])]
    output_format := some { structure_tag := some "infrastructure_focused", style := some "technical_detailed" }
    instructions := some
      { primary_role := some "AI search assistant for DevOps Engineers"
        core_objectives := some ["Infrastructure insights", "Cost optimization", "Scalability"]
        technical_depth := some "advanced" } }

/-- Built-in `software_engineer` profile (lines 104-143). -/
def defaultSoftwareEngineer : PersonaData :=
  { display_name := some "Software Engineer"
    description := some "Development frameworks and APIs focused AI search"
    focus_areas := some
      ["AI development frameworks", "LLM integration APIs", "AI coding assistants",
       "Generative AI SDKs", "AI testing frameworks", "Prompt engineering tools",
       "AI debugging solutions", "Vector databases", "Embedding models"]
    search_patterns := some
      ["new AI development frameworks", "LLM API updates", "AI coding tools",
       "generative AI SDKs", "AI testing libraries"]
    topic_categories := some
      [("frameworks", ["LangChain", "LlamaIndex", "Haystack"]),
       ("apis_and_sdks", ["OpenAI API", "Anthropic API", "Google Gemini API"]),
       ("development_tools", ["AI coding assistants", "code completion", "AI debuggers"])]
    search_modifiers := some
      [("implementation", ["tutorial", "example", "documentation"]),
       ("comparison", ["vs", "comparison", "benchmark"])]
    output_format := some { structure_tag := some "development_focused", style := some "practical_technical" }
    instructions := some
      { primary_role := some "AI search assistant for Software Engineers"
        core_objectives := some ["Development guidance", "API updates", "Best practices"]
        technical_depth := some "implementation_focused" } }

/-- Built-in `ai_engineer` profile (lines 145-184). -/
def defaultAiEngineer : PersonaData :=
  { display_name := some "AI Engineer"
    description := some "Research and ML engineering focused AI search"
    focus_areas := some
      ["LLM architectures", "Model training techniques", "Fine-tuning methodologies",
       "AI research papers", "Neural network innovations", "Model optimization",
       "Evaluation frameworks", "Transformer improvements", "Multi-modal models"]
    search_patterns := some
      ["latest LLM research papers", "new neural architectures",
       "model training techniques", "fine-tuning methods", "AI model optimization"]
    topic_categories := some
      [("architectures", ["transformer variants", "attention mechanisms", "encoder-decoder"]),
       ("training_techniques", ["supervised learning", "self-supervised", "reinforcement learning"]),
       ("optimization", ["gradient descent variants", "regularization techniques", "pruning"])]
    search_modifiers := some
      [("research", ["paper", "study", "research", "experiment"]),
       ("technical", ["architecture", "method", "algorithm"])]
    output_format := some { structure_tag := some "research_focused", style := some "academic_technical" }
    instructions := some
      { primary_role := some "AI search assistant for AI Engineers and Researchers"
        core_objectives := some ["Research insights", "Technical methodologies", "Innovations"]
        technical_depth := some "research_level" } }

/-- Built-in `product_owner` profile (lines 186-225). -/
def defaultProductOwner : PersonaData :=
  { display_name := some "Product Owner"
    description := some "Product features and user experience focused AI search"
    focus_areas := some
      ["AI product features", "User experience improvements", "Market adoption trends",
       "Competitive analysis", "Feature development costs", "Success metrics",
       "User feedback patterns", "AI accessibility", "Product roadmap planning"]
    search_patterns := some
      ["AI product features trends", "user experience AI", "AI adoption rates",
       "competitive AI features", "AI product success metrics"]
    topic_categories := some
      [("user_experience", ["UI/UX design", "accessibility", "usability testing"]),
       ("feature_development", ["feature prioritization", "MVP planning", "user stories"]),
       ("market_analysis", ["market research", "competitor analysis", "user surveys"])]
    search_modifiers := some
      [("user_focused", ["user", "customer", "experience", "feedback"]),
       ("market_focused", ["market", "competitive", "trends", "adoption"])]
    output_format := some { structure_tag := some "product_focused", style := some "strategic_user_centric" }
    instructions := some
      { primary_role := some "AI search assistant for Product Owners"
        core_objectives := some ["User insights", "Market trends", "Feature opportunities"]
        technical_depth := some "product_focused" } }

/-- Built-in `product_manager` profile (lines 227-266). -/
def defaultProductManager : PersonaData :=
  { display_name := some "Product Manager"
    description := some "Business strategy and market opportunity focused AI search"
    focus_areas := some
      ["AI business strategy", "Market opportunities", "Business model innovations",
       "Monetization strategies", "Enterprise adoption", "ROI measurements",
       "Strategic partnerships", "Investment trends", "Competitive positioning"]
    search_patterns := some
      ["AI business strategy", "AI market opportunities", "AI monetization models",
       "enterprise AI adoption", "AI partnership deals"]
    topic_categories := some
      [("business_strategy", ["strategic planning", "market positioning", "competitive advantage"]),
       ("financial_metrics", ["revenue models", "pricing strategies", "ROI analysis"]),
       ("partnerships", ["strategic alliances", "joint ventures", "technology partnerships"])]
    search_modifiers := some
      [("strategic", ["strategy", "strategic", "planning", "vision"]),
       ("financial", ["revenue", "profit", "ROI", "investment"])]
    output_format := some { structure_tag := some "business_focused", style := some "executive_strategic" }
    instructions := some
      { primary_role := some "AI search assistant for Product Managers"
        core_objectives := some ["Strategic insights", "Business opportunities", "Market intelligence"]
        technical_depth := some "business_strategic" } }

/-- `PersonaConfigLoader._get_default_config` (lines 58-268): the `personas`
mapping of the hard-coded fallback configuration, in source order. -/
def defaultConfigPersonas : List (String × PersonaData) :=
  [("devops_engineer", defaultDevopsEngineer),
   ("software_engineer", defaultSoftwareEngineer),
   ("ai_engineer", defaultAiEngineer),
   ("product_owner", defaultProductOwner),
   ("product_manager", defaultProductManager)]

/-! ### Configuration loading and reloading -/

/-- Outcome of `yaml.safe_load` on an existing configuration file:
`ynull` — the document is empty (`safe_load` returns `None`, so
`safe_load(file) or {}` stores `{}`); `ymap p` — a top-level mapping whose
optional `personas` key holds the entries `p`; `ylist` — a non-empty
top-level sequence (truthy, so `or {}` keeps it). -/
inductive YamlDoc where
  | ynull
  | ymap (personas : Option (List (String × PersonaData)))
  | ylist
deriving Repr, DecidableEq

/-- The configuration source seen by `_load_config`: the file is absent,
opening/parsing it raises, or it parses to a YAML document. -/
inductive LoadSource where
  | missing
  | raiseOnRead
  | doc (d : YamlDoc)
deriving Repr, DecidableEq

/-- The `self.config_data` value stored by `_load_config`: either a mapping
(with an optional `personas` key) or a non-mapping (list) document. -/
inductive ConfigData where
  | cmap (personas : Option (List (String × PersonaData)))
  | clist
deriving Repr, DecidableEq

/-- `PersonaConfigLoader._load_config` (lines 43-56): an absent file or a
read/parse exception falls back to `_get_default_config()`; otherwise the
parsed document (with `None` coerced to `{}` by `or {}`) is stored. -/
def load_config : LoadSource → ConfigData
  | LoadSource.missing => ConfigData.cmap (some defaultConfigPersonas)
  | LoadSource.raiseOnRead => ConfigData.cmap (some defaultConfigPersonas)
  | LoadSource.doc YamlDoc.ynull => ConfigData.cmap none
  | LoadSource.doc (YamlDoc.ymap p) => ConfigData.cmap p
  | LoadSource.doc YamlDoc.ylist => ConfigData.clist

/-- The in-memory registry `self.personas`: an insertion-ordered mapping,
as a Python `dict` (assignment to an existing key updates in place,
assignment to a new key appends). -/
def Registry : Type := List (String × PersonaConfig)

/-- Python `dict` assignment `m[k] = v`. -/
def dictInsert (m : List (String × PersonaConfig)) (k : String) (v : PersonaConfig) :
    List (String × PersonaConfig) :=
  if (m.map Prod.fst).contains k then
    m.map (fun e => if e.1 = k then (k, v) else e)
  else m ++ [(k, v)]

/-- `PersonaConfigLoader._parse_personas` (lines 270-294).  It iterates
`self.config_data.get("personas", {})` and assigns each parsed persona into
the *existing* `self.personas` dict — it never clears it.  When
`config_data` is a non-mapping document, `.get` raises `AttributeError`,
which the method does not catch (the inner `try` only guards one entry). -/
def parse_personas (cfg : ConfigData) (personas : List (String × PersonaConfig)) :
    Except PyError (List (String × PersonaConfig)) :=
  match cfg with
  | ConfigData.clist =>
      Except.error (PyError.attributeError "list object has no attribute get")
  | ConfigData.cmap p =>
      Except.ok ((p.getD []).foldl
        (fun st e => dictInsert st e.1 (parsePersona e.1 e.2)) personas)

/-- Registry construction in `PersonaConfigLoader.__init__` (lines 34-41):
`_load_config` followed by `_parse_personas` starting from an empty dict. -/
def loadRegistry (src : LoadSource) : Except PyError (List (String × PersonaConfig)) :=
  parse_personas (load_config src) []

/-- The persona names of a loading outcome (what `get_available_personas`
would return), or `none` if loading raised. -/
def registryNames : Except PyError (List (String × PersonaConfig)) → Option (List String)
  | Except.ok r => some (r.map Prod.fst)
  | Except.error _ => none

/-- `PersonaConfigLoader.reload_config` (lines 470-489): run `_load_config`
and `_parse_personas` again over the current state, returning `True` on
success; on an exception it returns `False` (and `self.personas` keeps its
previous value, since `_parse_personas` raised before any assignment). -/
def reload_config (src : LoadSource) (personas : List (String × PersonaConfig)) :
    Bool × List (String × PersonaConfig) :=
  match parse_personas (load_config src) personas with
  | Except.ok st => (true, st)
  | Except.error _ => (false, personas)

/-! ### Streaming chunks and content extraction (`sync_search_agent.py`) -/

/-- Value held by a leaf attribute of a chunk: a string, or some non-string
value (only its truthiness can matter). -/
inductive AVal where
  | astr (s : String)
  | anon (truthy : Bool)
deriving Repr, DecidableEq

/-- An attribute slot holding an object: absent (`hasattr` is false),
present but falsy (e.g. `None`), or a truthy object. -/
inductive OSlot (α : Type) where
  | missing
  | falsy
  | val (a : α)
deriving Repr, DecidableEq

/-- A `delta` object: optional `text` and `content` attributes. -/
structure DeltaObj where
  text : Option AVal := none
  content : Option AVal := none
deriving Repr, DecidableEq

/-- An `event.payload` object: optional `delta` object and optional
`content` attribute. -/
structure PayloadObj where
  delta : OSlot DeltaObj := OSlot.missing
  content : Option AVal := none
deriving Repr, DecidableEq

/-- An `event` object with its optional `payload`. -/
structure EventObj where
  payload : OSlot PayloadObj := OSlot.missing
deriving Repr, DecidableEq

/-- One element of a `choices` list: an optional `delta` attribute (no
truthiness check is applied to it in the source, only `hasattr`). -/
structure ChoiceObj where
  delta : Option DeltaObj := none
deriving Repr, DecidableEq

/-- A non-string chunk object with the attributes probed by
`_extract_content_from_chunk`. -/
structure ChunkObj where
  event : OSlot EventObj := OSlot.missing
  delta : OSlot DeltaObj := OSlot.missing
  content : Option AVal := none
  choices : Option (List ChoiceObj) := none
deriving Repr, DecidableEq

/-- A streamed chunk: either a plain string or an object. -/
inductive Chunk where
  | str (s : String)
  | obj (o : ChunkObj)
deriving Repr, DecidableEq

/-- Nested probes (lines 342-352): inside a truthy `chunk.event.payload`,
a truthy `delta` with a string `text` attribute returns that string — with
no emptiness check (`if isinstance(content, str): return content`); failing
that, a string `payload.content` is returned when its `strip()` is truthy. -/
def probeNested (o : ChunkObj) : Option String :=
  match o.event with
  | OSlot.val ev =>
    match ev.payload with
    | OSlot.val pl =>
      (match pl.delta with
       | OSlot.val dl =>
         match dl.text with
         | some (AVal.astr s) => some s
         | _ => none
       | _ => none).orElse
      (fun _ =>
        match pl.content with
        | some (AVal.astr s) => if pyStrip s ≠ "" then some s else none
        | _ => none)
    | _ => none
  | _ => none

/-- Direct `chunk.delta` probes (lines 353-361): when the `content`
attribute exists the `text` attribute is never tried (`elif`); both require
a string whose `strip()` is truthy. -/
def probeDirectDelta (o : ChunkObj) : Option String :=
  match o.delta with
  | OSlot.val dl =>
    match dl.content with
    | some (AVal.astr s) => if pyStrip s ≠ "" then some s else none
    | some (AVal.anon _) => none
    | none =>
      match dl.text with
      | some (AVal.astr s) => if pyStrip s ≠ "" then some s else none
      | _ => none
  | _ => none

/-- Direct `chunk.content` probe (lines 362-365). -/
def probeDirectContent (o : ChunkObj) : Option String :=
  match o.content with
  | some (AVal.astr s) => if pyStrip s ≠ "" then some s else none
  | _ => none

/-- The `choices` loop (lines 368-373): first choice whose `delta.content`
is a string with truthy `strip()`. -/
def firstChoiceContent : List ChoiceObj → Option String
  | [] => none
  | ch :: rest =>
    match ch.delta with
    | some dl =>
      match dl.content with
      | some (AVal.astr s) =>
          if pyStrip s ≠ "" then some s else firstChoiceContent rest
      | _ => firstChoiceContent rest
    | none => firstChoiceContent rest

/-- `chunk.choices` probe; an absent or empty list yields nothing (an empty
Python list is falsy, and the loop over it finds nothing either way). -/
def probeChoices (o : ChunkObj) : Option String :=
  match o.choices with
  | some cs => firstChoiceContent cs
  | none => none

/-- `SyncSearchAgent._extract_content_from_chunk` (lines 337-378).  A plain
string chunk has none of the probed attributes, so only the
`isinstance(chunk, str)` probe can fire for it; an object is never an
instance of `str`, so for objects the four attribute probes run in source
order.  The surrounding `try`/`except` returns `""` instead of raising; in
this model every probe is total, so the function simply returns `""` when
no probe fires. -/
def extract_content_from_chunk : Chunk → String
  | Chunk.str s => if pyStrip s ≠ "" then s else ""
  | Chunk.obj o =>
    ((((probeNested o).orElse (fun _ => probeDirectDelta o)).orElse
        (fun _ => probeDirectContent o)).orElse
        (fun _ => probeChoices o)).getD ""

/-- A chunk on which none of the extraction probes fires. -/
def matchesNoProbe : Chunk → Bool
  | Chunk.str s => pyStrip s = ""
  | Chunk.obj o =>
      (probeNested o).isNone && (probeDirectDelta o).isNone &&
      (probeDirectContent o).isNone && (probeChoices o).isNone

/-- Modelled from the spec: the claimed extraction discipline, in which the
probes are tried in the fixed order and "the first probe that yields a
non-empty string wins" — every probe, including the nested
`event.payload.delta.text` one, only wins with a non-empty string. -/
def specExtractContent (c : Chunk) : String :=
  let candidates : List (Option String) :=
    match c with
    | Chunk.str s => [none, none, none, none, none, some s, none]
    | Chunk.obj o =>
      [ (match o.event with
         | OSlot.val ev =>
           match ev.payload with
           | OSlot.val pl =>
             (match pl.delta with
              | OSlot.val dl =>
                match dl.text with
                | some (AVal.astr s) => some s
                | _ => none
              | _ => none)
           | _ => none
         | _ => none),
        (match o.event with
         | OSlot.val ev =>
           match ev.payload with
           | OSlot.val pl =>
             (match pl.content with
              | some (AVal.astr s) => some s
              | _ => none)
           | _ => none
         | _ => none),
        (match o.delta with
         | OSlot.val dl =>
           match dl.content with
           | some (AVal.astr s) => some s
           | _ => none
         | _ => none),
        (match o.delta with
         | OSlot.val dl =>
           match dl.text with
           | some (AVal.astr s) => some s
           | _ => none
         | _ => none),
        (match o.content with
         | some (AVal.astr s) => some s
         | _ => none),
        none,
        (match o.choices with
         | some cs =>
           (cs.filterMap (fun ch =>
              match ch.delta with
              | some dl =>
                match dl.content with
                | some (AVal.astr s) => some s
                | _ => none
              | none => none)).head?
         | none => none) ]
  match candidates.filterMap id |>.filter (fun s => s ≠ "") with
  | [] => ""
  | s :: _ => s

/-! ### Stream consumption (`sync_search_agent.py`) -/

/-- The consumption loop of `_execute_search_sync` (lines 311-324) over
timed chunks: each pair carries the elapsed seconds at which the chunk is
received from the generator and the chunk itself.  Per iteration the chunk
counter is incremented first; the deadline (`current_time - start_time >
self.timeout`) is checked next and a late chunk breaks the loop *before*
content extraction; otherwise extracted non-empty content is appended and
counted.  Returns (accumulated text, chunk count, content-chunk count,
whether the loop broke on the deadline — the code only logs this flag). -/
def search_stream_loop (timeout : ℚ) :
    List (ℚ × Chunk) → String → Nat → Nat → String × Nat × Nat × Bool
  | [], acc, cc, cch => (acc, cc, cch, false)
  | (t, c) :: rest, acc, cc, cch =>
    if t > timeout then (acc, cc + 1, cch, true)
    else
      let content := extract_content_from_chunk c
      if content ≠ "" then search_stream_loop timeout rest (acc ++ content) (cc + 1) (cch + 1)
      else search_stream_loop timeout rest acc (cc + 1) cch

/-- `SyncSearchAgent._execute_search_sync` (lines 292-335).  The streaming
call is modelled by its outcome: either the transport raises (caught at
lines 333-335 and turned into a failure string) or it yields a sequence of
timed chunks.  After the loop the deadline flag is discarded (it is only
logged at line 315): the returned value is the bare stripped text, or the
no-content message when nothing was extracted. -/
def execute_search_sync (stream : Except String (List (ℚ × Chunk))) (timeout : ℚ) : String :=
  match stream with
  | Except.error e => "Search execution failed: " ++ e
  | Except.ok chunks =>
    let r := search_stream_loop timeout chunks "" 0 0
    if pyStrip r.1 = "" then
      "No content extracted from " ++ toString r.2.1 ++
        " chunks. The agent may not be responding to the search query properly."
    else pyStrip r.1

/-- The chunk loop of `search_ai_info_stream` (lines 218-238), which has no
deadline: every chunk increments `chunk_count`, and only chunks whose
extracted content is non-empty are appended and increment `content_chunks`.
Returns (accumulated text, chunk count, content-chunk count). -/
def stream_consume : List Chunk → String × Nat × Nat
  | [] => ("", 0, 0)
  | c :: rest =>
    let r := stream_consume rest
    let content := extract_content_from_chunk c
    if content ≠ "" then (content ++ r.1, r.2.1 + 1, r.2.2 + 1)
    else (r.1, r.2.1 + 1, r.2.2)

/-! ### Response formatting and the top-level search (`sync_search_agent.py`) -/

/-- An apostrophe, kept out of string literals. -/
def apos : String := (Char.ofNat 39).toString

/-- `persona_config.display_name if persona_config else
persona.replace('_', ' ').title()` (lines 287, 385, 411). -/
def displayNameOf (persona : String) (pc : Option PersonaConfig) : String :=
  match pc with
  | some c => c.display_name
  | none => pyTitle (charReplace '_' ' ' persona)

/-- `SyncSearchAgent._build_working_search_query` (lines 283-290); the
`time_range` argument is accepted but unused by the body. -/
def build_working_search_query (persona : String) (persona_config : Option PersonaConfig)
    (focus_areas : List String) (_time_range : String) : String :=
  let persona_display := displayNameOf persona persona_config
  let focus_text := pyJoin ", " focus_areas
  "Search for the latest information about " ++ focus_text ++
    ". Focus on developments relevant to a " ++ persona_display ++ "."

/-- The diagnostic template of `_format_response` (lines 386-400), rendered
when no search results are available. -/
def search_results_unavailable_template (display_name : String) (focus_areas : List String) : String :=
  "# Search Results Unavailable\n\nUnfortunately, no search results are currently available for "
    ++ display_name ++
    ".\n\n**Possible causes:**\n- Web search tool may not be properly configured\n- Knowledge base may be empty\n- Network connectivity issues\n- Agent may not be invoking tools automatically\n\n**Requested focus areas:** "
    ++ pyJoin ", " focus_areas ++
    "\n\n**Troubleshooting tip:** Try simpler queries like \"What" ++ apos ++
    "s the latest in AI?\" or \"Search for recent ML developments\"\n\nPlease check the system configuration and try again."

/-- `SyncSearchAgent._add_headers_and_structure` (lines 406-430); the
timestamp string (`datetime.utcnow().strftime(...)`) is passed in. -/
def add_headers_and_structure (response : String) (persona : String)
    (persona_config : Option PersonaConfig) (focus_areas : List String)
    (timestamp : String) : String :=
  let display_name := displayNameOf persona persona_config
  let header :=
    "# 🔄 SyncAI Intelligence Report: " ++ display_name ++ "\n\n" ++
    "**Focus Areas:** " ++ pyJoin ", " focus_areas ++ "\n" ++
    "**Generated:** " ++ timestamp ++ "\n" ++
    (match persona_config with
     | some c => "**Report Type:** " ++ c.description ++ "\n"
     | none => "") ++
    "\n---\n\n"
  let response1 := if pyStartsWith response "#" then response else header ++ response
  let footer :=
    "\n\n---\n\n*This report was generated by SyncAI using automated tool invocation.*\n" ++
    "*Optimized for: " ++ display_name ++ "*\n" ++
    "*Report generated at " ++ timestamp ++ "*\n" ++
    (match persona_config with
     | some c =>
       match (c.instructions.core_objectives.getD []) with
       | [] => ""
       | o :: os => "*Focus: " ++ pyJoin ", " ((o :: os).take 3) ++ "*\n"
     | none => "")
  response1 ++ footer

/-- `SyncSearchAgent._format_response` (lines 380-404): empty or whitespace
results render the diagnostic template; otherwise headers and footer are
attached. -/
def format_response (search_results : String) (persona : String)
    (persona_config : Option PersonaConfig) (focus_areas : List String)
    (timestamp : String) : String :=
  if pyStrip search_results = "" then
    search_results_unavailable_template (displayNameOf persona persona_config) focus_areas
  else
    add_headers_and_structure search_results persona persona_config focus_areas timestamp

/-- The external effects consumed by one `search_ai_info` invocation:
the outcome of `config_loader.get_persona_config`, the outcome of the
streaming call (a transport exception or the timed chunk sequence), the
generated uuid, the formatted timestamp, and the final clock reading. -/
structure AgentEnv where
  personaCfg : Except String PersonaConfig
  stream : Except String (List (ℚ × Chunk))
  uuidStr : String
  nowStr : String
  elapsed : ℚ

/-- The record returned by `search_ai_info` (lines 59-79 on success, 83-91
on failure); `response_available` is the `sources_summary.response_available`
entry, absent from the failure record; observability-only fields
(`processing_metadata` timestamps, agent/session ids) are elided. -/
structure SearchRecord where
  persona : String
  focus_areas : List String
  formatted_response : String
  correlation_id : String
  elapsed_time : ℚ
  search_strategy : String
  response_available : Option Bool
  error : Option String
deriving Repr, DecidableEq

/-- Python truthiness of an optional list argument (`if not focus_areas`). -/
def pyFalsyStrList : Option (List String) → Bool
  | none => true
  | some [] => true
  | some (_ :: _) => false

/-- The `try` block of `search_ai_info` (lines 37-79).  The inner
`try`/`except` around persona-config loading (lines 39-46) is total: a
loading failure falls back to default focus areas.  `_execute_search_sync`
and `_format_response` are total as well, so this body never reaches the
outer handler. -/
def search_ai_info_try (env : AgentEnv) (timeout : ℚ) (persona : String)
    (focus_areas : Option (List String)) (time_range : String)
    (correlation_id : String) : Except String SearchRecord := do
  let pcFas :=
    match env.personaCfg with
    | Except.ok pc =>
      (some pc, if pyFalsyStrList focus_areas then pc.focus_areas.take 3
                else focus_areas.getD [])
    | Except.error _ =>
      (none, if pyFalsyStrList focus_areas then ["AI developments", "technology trends"]
             else focus_areas.getD [])
  let _search_query := build_working_search_query persona pcFas.1 pcFas.2 time_range
  let search_results := execute_search_sync env.stream timeout
  let formatted_response := format_response search_results persona pcFas.1 pcFas.2 env.nowStr
  Except.ok
    { persona := persona
      focus_areas := pcFas.2
      formatted_response := formatted_response
      correlation_id := correlation_id
      elapsed_time := env.elapsed
      search_strategy := "working_simple_query"
      response_available := some (pyStrip search_results != "")
      error := none }

/-- `SyncSearchAgent.search_ai_info` (lines 34-91): generate the correlation
id when absent, run the body, and on an escaping exception return the
degraded record of lines 83-91 with the explicit `error` field. -/
def search_ai_info (env : AgentEnv) (timeout : ℚ) (persona : String)
    (focus_areas : Option (List String)) (time_range : String)
    (correlation_id : Option String) : SearchRecord :=
  let corr :=
    match correlation_id with
    | some c => if c = "" then env.uuidStr else c
    | none => env.uuidStr
  match search_ai_info_try env timeout persona focus_areas time_range corr with
  | Except.ok r => r
  | Except.error e =>
    { persona := persona
      focus_areas := focus_areas.getD []
      formatted_response :=
        "Search temporarily unavailable for " ++ persona ++
          ". Please try again later.\n\nError: " ++ e
      correlation_id := corr
      elapsed_time := env.elapsed
      search_strategy := "working_simple_query"
      response_available := none
      error := some e }

/-! ### Newsletter and daily-brief transforms (`sync_search_agent.py`) -/

/-- The non-empty stripped lines of the response
(`_transform_to_newsletter_format`, line 440). -/
def newsletter_lines (response : String) : List String :=
  ((pyLines response).map pyStrip).filter (fun l => l ≠ "")

/-- The `Key Updates` enumeration loop (lines 441-442). -/
def numberItems (ls : List String) : String :=
  ls.enum.foldl (fun acc e => acc ++ "**" ++ toString (e.1 + 1) ++ ".** " ++ e.2 ++ "\n") ""

/-- `SyncSearchAgent._transform_to_newsletter_format` (lines 432-445); the
`today` string (`datetime.utcnow().strftime("%B %d, %Y")`) is passed in;
`persona_config` and `focus_areas` are accepted but unused by the body. -/
def transform_to_newsletter_format (response : String) (persona : String)
    (_persona_config : Option PersonaConfig) (_focus_areas : Option (List String))
    (today : String) : String :=
  let display_name := pyTitle (charReplace '_' ' ' persona)
  let header := "# " ++ display_name ++ " Weekly Brief\n*" ++ today ++ "*"
  let key_updates := "\n\n## Key Updates\n\n" ++ numberItems (newsletter_lines response)
  let action_items := "\n\n## Action Items\n\n• Review these updates\n• Plan follow-ups\n• See documentation for details"
  let footer := "\n---\n*Generated by SyncAI — Next brief: " ++ today ++ "*"
  header ++ key_updates ++ action_items ++ footer

/-- The bullet-collection loop of `_transform_to_daily_brief_format`
(lines 453-458): each non-empty stripped line becomes a numbered bullet,
and after each line the loop breaks once three bullets exist. -/
def daily_brief_bullets_go : List String → List String → List String
  | [], acc => acc.reverse
  | l :: ls, acc =>
    let acc1 :=
      if pyStrip l ≠ "" then
        ("**" ++ toString (acc.length + 1) ++ ".** " ++ pyStrip l) :: acc
      else acc
    if acc1.length ≥ 3 then acc1.reverse else daily_brief_bullets_go ls acc1

/-- The bullets produced for a response by the daily-brief transform. -/
def daily_brief_bullets (response : String) : List String :=
  daily_brief_bullets_go (pyLines response) []

/-- `SyncSearchAgent._transform_to_daily_brief_format` (lines 447-462); the
`today` string (`strftime("%b %d")`) is passed in. -/
def transform_to_daily_brief_format (response : String) (persona : String)
    (_persona_config : Option PersonaConfig) (focus_areas : Option (List String))
    (today : String) : String :=
  let display_name := pyTitle (charReplace '_' ' ' persona)
  let bullets_text := pyJoin "\n" (daily_brief_bullets response)
  let action := "\n\n**Action:** Review top developments."
  let footer :=
    "\n\n*Focus: " ++
      (match focus_areas with
       | some (f :: fs) => pyJoin ", " (f :: fs)
       | _ => "") ++ "*"
  "# " ++ display_name ++ " Daily\n*" ++ today ++ "*\n\n" ++ bullets_text ++ action ++ footer

/-! ### Query composition (`search_preprocessor.py`) -/

/-- `_clean_focus_area` (lines 178-190): strip and collapse whitespace,
drop characters outside word characters, whitespace, `-` and `.` (ASCII
reading of the `\w` class), then uppercase the first character and
lowercase the rest. -/
def pyCleanFocusArea (area : String) : String :=
  let collapsed :=
    pyJoin " " (((splitPred Char.isWhitespace (pyStrip area).data).map String.mk).filter (fun w => w ≠ ""))
  let cleaned := String.mk (collapsed.toList.filter
    (fun c => c.isAlphanum ∨ c = '_' ∨ c = ' ' ∨ c = '-' ∨ c = '.'))
  match cleaned.toList with
  | [] => ""
  | c :: cs => String.mk (c.toUpper :: cs.map Char.toLower)

/-- `_process_focus_areas_from_config` (lines 146-176) with the default
limit `max_focus_areas = 10`: absent or empty input falls back to the
persona's first 8 configured areas; otherwise entries are cleaned, entries
shorter than 3 characters dropped, the list capped at 10, and an empty
cleaned result again falls back to the persona's defaults. -/
def process_focus_areas_from_config (focus_areas : Option (List String))
    (pc : PersonaConfig) : List String :=
  if pyFalsyStrList focus_areas then pc.focus_areas.take 8
  else
    let cleaned := (focus_areas.getD []).filterMap (fun a =>
      let c := pyCleanFocusArea a
      if c ≠ "" ∧ 3 ≤ c.length then some c else none)
    let limited := if 10 < cleaned.length then cleaned.take 10 else cleaned
    if limited = [] then pc.focus_areas.take 8 else limited

/-- The search context built by `_generate_search_context_from_config`
(lines 214-232). -/
structure SearchContext where
  persona_display : String
  persona_description : String
  focus_summary : String
  time_context : String
  search_scope : String
  priority : String
  technical_depth : String
  core_objectives : List String
  output_style : String
deriving Repr

/-- `_generate_search_context_from_config` (lines 214-232). -/
def generate_search_context_from_config (_persona : String) (pc : PersonaConfig)
    (focus_areas : List String) (time_range : String) : SearchContext :=
  { persona_display := pc.display_name
    persona_description := pc.description
    focus_summary := pyJoin ", " focus_areas
    time_context := get_time_context time_range
    search_scope := "comprehensive_dual_source"
    priority := "balanced_rag_and_web"
    technical_depth := pc.instructions.technical_depth.getD "balanced"
    core_objectives := pc.instructions.core_objectives.getD []
    output_style := pc.output_format.style.getD "balanced" }

/-- `_get_persona_search_guidance_from_config` (lines 300-328). -/
def get_persona_search_guidance_from_config (pc : PersonaConfig) : String :=
  let parts : List String :=
    (if pc.description ≠ "" then ["- " ++ pc.description] else []) ++
    (match pc.instructions.core_objectives.getD [] with
     | [] => []
     | objs@(_ :: _) => ["- Focus on: " ++ pyJoin ", " objs]) ++
    (let primary_role := pc.instructions.primary_role.getD ""
     if primary_role ≠ "" ∧ strContains (pyLower primary_role) "assistant" = false then
       ["- Role context: " ++ primary_role]
     else []) ++
    (match pc.search_patterns with
     | [] => []
     | ps@(_ :: _) => ["- Key search areas: " ++ pyJoin ", " (ps.take 3)]) ++
    (match pc.topic_categories with
     | [] => []
     | cs@(_ :: _) =>
       ["- Topic categories: " ++ pyJoin ", " ((cs.map Prod.fst).take 3)])
  match parts with
  | [] => "Provide comprehensive information relevant to " ++ pc.display_name ++ "."
  | _ :: _ => pyJoin "\n" parts

/-- `_build_unified_search_query_from_config` (lines 245-298): the fixed
five-part prompt template, rendered from the persona configuration, the
focus areas, the time range token and the search context. -/
def build_unified_search_query_from_config (_persona : String) (pc : PersonaConfig)
    (focus_areas : List String) (time_range : String) (search_context : SearchContext) :
    String :=
  let persona_display := pc.display_name
  let time_context := search_context.time_context
  let persona_guidance := get_persona_search_guidance_from_config pc
  let core_objectives := pc.instructions.core_objectives.getD []
  let objectives_text :=
    match core_objectives with
    | [] => ""
    | objs@(_ :: _) => "Core objectives: " ++ pyJoin ", " objs
  let technical_depth := pc.instructions.technical_depth.getD "balanced"
  "I need a comprehensive intelligence report for a " ++ persona_display ++
    " about: " ++ pyJoin ", " focus_areas ++
    "\n\nSEARCH INSTRUCTIONS:\n1. First, search your knowledge base for established information, best practices, and proven methodologies about these topics\n2. Then, search the web for the latest developments, news, and trends from the "
    ++ time_context ++
    "\n3. Combine both sources to provide a complete picture\n\nPERSONA FOCUS:\n"
    ++ persona_guidance ++ "\n\n" ++ objectives_text ++
    "\n\nTECHNICAL DEPTH: " ++ technical_depth ++
    "\n\nTIME RANGE: Focus on developments from the last " ++ time_range ++
    " for web search.\n\nRESPONSE STRUCTURE:\nPlease organize your response as follows:\n\n## 📚 Knowledge Base Insights\n[Established information from your knowledge base - proven practices, foundational concepts]\n\n## 🌐 Latest Developments\n[Recent information from web search - news, trends, announcements from the "
    ++ time_context ++
    "]\n\n## 💡 Strategic Synthesis for " ++ persona_display ++
    "\n[Combined insights, actionable recommendations, and next steps specifically relevant to "
    ++ persona_display ++
    "]\n\nIMPORTANT: Use BOTH your knowledge base search AND web search capabilities. Clearly distinguish between established knowledge and recent developments."

/-- The modifier loop of `_generate_alternative_queries_from_config`
(lines 344-347). -/
def altFromModifiers (mods : List (String × List String)) (primary : String)
    (alts : List String) : List String :=
  mods.foldl
    (fun a m =>
      match m.2 with
      | [] => a
      | mo :: _ => if a.length < 2 then a ++ [mo ++ " " ++ primary] else a)
    alts

/-- `_generate_alternative_queries_from_config` (lines 330-358). -/
def generate_alternative_queries_from_config (pc : PersonaConfig)
    (focus_areas : List String) : List String :=
  let alts0 : List String :=
    match pc.search_patterns with
    | [] => []
    | p :: _ => [p]
  let alts1 :=
    match focus_areas with
    | [] => alts0
    | primary :: _ =>
      if pc.search_modifiers ≠ [] then altFromModifiers pc.search_modifiers primary alts0
      else alts0
  let alts2 :=
    if alts1 = [] ∧ 1 < focus_areas.length then
      match focus_areas with
      | primary :: _ =>
        alts1 ++ ["Latest developments in " ++ primary ++ " for " ++ pc.display_name]
      | [] => alts1
    else alts1
  let alts3 :=
    if alts2.length < 2 then
      alts2 ++ ["Current trends and innovations in " ++
                  pyJoin ", " (focus_areas.take 3)]
    else alts2
  alts3.take 2

/-- `_get_enhanced_instructions_from_config` (lines 360-381). -/
def get_enhanced_instructions_from_config (pc : PersonaConfig) : String :=
  let base_instructions :=
    "\nYou are SyncAI, a professional intelligence assistant. You have access to both a knowledge base (RAG) and web search.\n\nCRITICAL REQUIREMENTS:\n- ALWAYS use BOTH tools when responding to comprehensive intelligence requests\n- Clearly distinguish between established knowledge (knowledge base) and recent developments (web search)\n- Provide actionable insights specific to the user"
      ++ apos ++
      "s role\n- Include source attribution when possible\n- Format responses professionally with clear sections\n"
  let primary_role :=
    pc.instructions.primary_role.getD ("AI search assistant for " ++ pc.display_name)
  let role_specific :=
    "PRIMARY ROLE: " ++ primary_role ++
      (match pc.instructions.core_objectives.getD [] with
       | [] => ""
       | objs@(_ :: _) => "\nCORE OBJECTIVES: " ++ pyJoin ", " objs)
  base_instructions ++ "\n" ++ role_specific

/-- The metadata mapping built by `_build_query_metadata_from_config`
(lines 383-398). -/
structure QueryMetadata where
  persona : String
  persona_display : String
  focus_area_count : Nat
  time_range : String
  query_complexity : String
  expected_sources : List String
  search_mode : String
  quality_requirements : List String
  technical_depth : String
  output_style : String
  configured_patterns : Nat
  configured_categories : Nat
deriving Repr

/-- `_build_query_metadata_from_config` (lines 383-398). -/
def build_query_metadata_from_config (pc : PersonaConfig) (focus_areas : List String)
    (time_range : String) : QueryMetadata :=
  { persona := pc.name
    persona_display := pc.display_name
    focus_area_count := focus_areas.length
    time_range := time_range
    query_complexity := "comprehensive"
    expected_sources := ["knowledge_base", "web_search"]
    search_mode := "unified_agent"
    quality_requirements := ["source_attribution", "recency_indication", "actionable_insights"]
    technical_depth := pc.instructions.technical_depth.getD "balanced"
    output_style := pc.output_format.style.getD "balanced"
    configured_patterns := pc.search_patterns.length
    configured_categories := pc.topic_categories.length }

/-! ### The preprocessor entry points (`search_preprocessor.py`) -/

/-- The prepared request returned by `validate_and_prepare_request`
(lines 85-97); the `processing_metadata` timing fields are elided, as the
method can never reach them. -/
structure PreparedRequest where
  persona : String
  focus_areas : List String
  time_range : String
  correlation_id : String
  persona_config : PersonaConfig
  search_context : SearchContext
deriving Repr

/-- `SearchQueryPreprocessor.validate_and_prepare_request` (lines 42-97).
Its first statement, `start_time = time.time()` (line 52), resolves the
name `time` against the module scope; the loader registry and the generated
uuid are passed in for the rest of the body. -/
def validate_and_prepare_request (available : List (String × PersonaConfig))
    (persona : String) (focus_areas : Option (List String)) (time_range : String)
    (correlation_id : Option String) (uuidStr : String) :
    Except PyError PreparedRequest := do
  let _start ← evalName searchPreprocessorGlobals "time"
  let corr :=
    match correlation_id with
    | some c => if c = "" then uuidStr else c
    | none => uuidStr
  let _ ←
    (if (available.map Prod.fst).contains persona then Except.ok ()
     else Except.error (PyError.valueError ("Unknown persona: " ++ persona)))
  match available.lookup persona with
  | none =>
    Except.error (PyError.valueError ("Could not load configuration for persona: " ++ persona))
  | some pc => do
    let processed := process_focus_areas_from_config focus_areas pc
    let validated := validate_time_range_pre time_range
    let ctx := generate_search_context_from_config persona pc processed validated
    let _elapsed ← evalName searchPreprocessorGlobals "time"
    Except.ok
      { persona := persona
        focus_areas := processed
        time_range := validated
        correlation_id := corr
        persona_config := pc
        search_context := ctx }

/-- The query data returned by `generate_search_queries` (lines 129-140);
the `processing_info` timing fields are elided, as the method can never
reach them. -/
structure QueryData where
  primary_query : String
  alternative_queries : List String
  persona_instructions : String
  query_metadata : QueryMetadata
  search_strategy : String
deriving Repr

/-- `SearchQueryPreprocessor.generate_search_queries` (lines 99-144).  Its
first statement, `start_time = time.time()` (line 103), resolves the name
`time` against the module scope. -/
def generate_search_queries (prepared : PreparedRequest) : Except PyError QueryData := do
  let _start ← evalName searchPreprocessorGlobals "time"
  let unified := build_unified_search_query_from_config prepared.persona
    prepared.persona_config prepared.focus_areas prepared.time_range
    prepared.search_context
  let alts := generate_alternative_queries_from_config prepared.persona_config
    prepared.focus_areas
  let instrs := get_enhanced_instructions_from_config prepared.persona_config
  let md := build_query_metadata_from_config prepared.persona_config
    prepared.focus_areas prepared.time_range
  let _elapsed ← evalName searchPreprocessorGlobals "time"
  Except.ok
    { primary_query := unified
      alternative_queries := alts
      persona_instructions := instrs
      query_metadata := md
      search_strategy := "unified_agent_dual_tools" }

/-! ### Quality analysis (`search_postprocessor.py`, `ResponseQualityAnalyzer`) -/

/-- Indicator value of a boolean. -/
def b2q (b : Bool) : ℚ := if b then 1 else 0

/-- `re.search(a ++ ".*" ++ b, line)` on one line: an occurrence of `a`
followed (on the same line, `.` does not cross newlines) by `b`. -/
def seqWithin (l a b : String) : Bool :=
  match afterFirst a.data l.data with
  | some r => containsSub r b.data
  | none => false

/-- Case-insensitive `re.search(a ++ ".*" ++ b, s)` over a multi-line
string (the patterns used are lowercase). -/
def reSearchSeq (s a b : String) : Bool :=
  (pyLines (pyLower s)).any (fun l => seqWithin l a b)

/-- `_analyze_completeness` (lines 576-584): the mean of five boolean
indicators. -/
def analyze_completeness (response : String) : ℚ :=
  let indicators : List Bool :=
    [reSearchSeq response "knowledge" "base",
     reSearchSeq response "latest" "developments",
     strContains response "#",
     500 < response.length,
     strContains (pyLower response) "synth" || strContains (pyLower response) "recommend" ||
       reSearchSeq response "next" "step"]
  ((indicators.map b2q).sum) / 5

/-- The fixed per-persona keyword table of `_analyze_relevance`
(lines 588-594). -/
def personaKeywords (persona : String) : List String :=
  if persona = "devops_engineer" then
    ["infrastructure", "deployment", "ops", "scaling", "cost"]
  else if persona = "software_engineer" then
    ["api", "framework", "development", "code", "integration"]
  else if persona = "ai_engineer" then
    ["model", "research", "training", "architecture", "neural"]
  else if persona = "product_owner" then
    ["product", "feature", "user", "market", "roadmap"]
  else if persona = "product_manager" then
    ["business", "strategy", "revenue", "competitive", "market"]
  else []

/-- `_analyze_relevance` (lines 586-600): fraction of the persona keyword
set found in the lowercased text, capped at 1; neutral 0.5 when the persona
has no keyword set. -/
def analyze_relevance (response : String) (persona : String) : ℚ :=
  let keywords := personaKeywords persona
  match keywords with
  | [] => 1 / 2
  | _ :: _ =>
    let found := (keywords.filter (fun k => strContains (pyLower response) k)).length
    min 1 ((found : ℚ) / keywords.length)

/-- `^\s*[-*]\s+` on one (newline-split) line: optional leading whitespace,
a dash or star, then at least one whitespace character. -/
def lineIsBulleted (l : String) : Bool :=
  match l.toList.dropWhile Char.isWhitespace with
  | c :: d :: _ => (c = '-' ∨ c = '*') ∧ d.isWhitespace
  | _ => false

/-- The visual-marker glyphs of `_analyze_readability` (line 610), the
variation selector of the tools glyph included. -/
def readabilityGlyphs : List String :=
  ["📚", "🌐", "💡", "🔍", "⚡", "📋", "🛠", (Char.ofNat 0xFE0F).toString]

/-- `_analyze_readability` (lines 602-614).  The fourth indicator,
`not re.search(r'.{200,}', response.replace('\n', ' '))`, holds exactly
when the whole text is shorter than 200 characters, since after the
replacement no newline is left to break a match. -/
def analyze_readability (response : String) : ℚ :=
  let indicators : List Bool :=
    [strContains response "#",
     (pyLines response).any lineIsBulleted,
     2 < countSep2 '\n' '\n' response.data + 1,
     response.length < 200,
     readabilityGlyphs.any (fun g => strContains response g)]
  ((indicators.map b2q).sum) / 5

/-- The `metadata` argument of `analyze_response`: either absent/`None`, or
a mapping; of the mapping only the truthiness of its `sources_summary`
entry is consumed (`bool(metadata.get("sources_summary"))`). -/
structure Meta where
  sources_summary : Bool := false
deriving Repr, DecidableEq

/-- `_analyze_source_attribution` (lines 616-623): the two text indicators
are computed, then `metadata.get("sources_summary")` is evaluated — on a
`None` metadata this raises `AttributeError`. -/
def analyze_source_attribution (response : String) (metadata : Option Meta) :
    Except PyError ℚ :=
  let has_sources_section := (pyLines (pyLower response)).any (fun l => seqWithin l "#" "source")
  let mentions_tools :=
    strContains (pyLower response) "web search" || strContains (pyLower response) "knowledge base" ||
      strContains (pyLower response) "rag"
  match metadata with
  | none => Except.error (PyError.attributeError "NoneType object has no attribute get")
  | some m =>
    Except.ok ((b2q has_sources_section + b2q mentions_tools + b2q m.sources_summary) / 3)

/-- `_analyze_actionability` (lines 625-634). -/
def analyze_actionability (response : String) : ℚ :=
  let lo := (pyLower response)
  let indicators : List Bool :=
    [strContains lo "recommend" || strContains lo "suggest" || strContains lo "should" ||
       strContains lo "consider",
     reSearchSeq response "next" "step" || reSearchSeq response "action" "item" ||
       strContains lo "implement",
     strContains lo "strategy" || strContains lo "approach" || strContains lo "method",
     reSearchSeq response "how" "to" || strContains lo "guide" || strContains lo "tutorial"]
  ((indicators.map b2q).sum) / 4

/-- `_get_quality_grade` (lines 636-650). -/
def get_quality_grade (score : ℚ) : String :=
  if 9 / 10 ≤ score then "A+"
  else if 8 / 10 ≤ score then "A"
  else if 7 / 10 ≤ score then "B+"
  else if 6 / 10 ≤ score then "B"
  else if 5 / 10 ≤ score then "C+"
  else if 4 / 10 ≤ score then "C"
  else "D"

/-- `_generate_recommendations` (lines 652-671). -/
def generate_recommendations (completeness relevance readability source_attribution
    actionability : ℚ) : List String :=
  (if completeness < 7 / 10 then
    ["Add more comprehensive coverage of both knowledge base and latest developments"]
   else []) ++
  (if relevance < 6 / 10 then
    ["Increase persona-specific content and terminology"]
   else []) ++
  (if readability < 7 / 10 then
    ["Improve formatting with better headers, lists, and visual elements"]
   else []) ++
  (if source_attribution < 5 / 10 then
    ["Add clear source attribution and mention search methodology"]
   else []) ++
  (if actionability < 6 / 10 then
    ["Include more actionable recommendations and next steps"]
   else [])

/-- The analysis returned by `analyze_response` (lines 566-575). -/
structure QualityAnalysis where
  completeness : ℚ
  relevance : ℚ
  readability : ℚ
  source_attribution : ℚ
  actionability : ℚ
  overall_score : ℚ
  quality_grade : String
  recommendations : List String
deriving Repr

/-- `ResponseQualityAnalyzer.analyze_response` (lines 545-575): the five
sub-scores in source order (source attribution is the only fallible step),
then the weighted overall score with the weights of `quality_criteria`
(lines 537-543) and the grade and recommendations. -/
def analyze_response (response : String) (persona : String) (metadata : Option Meta) :
    Except PyError QualityAnalysis := do
  let completeness := analyze_completeness response
  let relevance := analyze_relevance response persona
  let readability := analyze_readability response
  let source_attribution ← analyze_source_attribution response metadata
  let actionability := analyze_actionability response
  let overall_score :=
    completeness * (3 / 10) + relevance * (1 / 4) + readability * (1 / 5) +
      source_attribution * (3 / 20) + actionability * (1 / 10)
  Except.ok
    { completeness := completeness
      relevance := relevance
      readability := readability
      source_attribution := source_attribution
      actionability := actionability
      overall_score := overall_score
      quality_grade := get_quality_grade overall_score
      recommendations :=
        generate_recommendations completeness relevance readability
          source_attribution actionability }

/-! ### Helper lemmas -/

/-- A string of length zero is empty. -/
theorem eq_empty_of_length_zero {s : String} (h : s.length = 0) : s = "" := by
  cases s with
  | mk data =>
    cases data with
    | nil => rfl
    | cons c cs => simp [String.length] at h

/-- A concatenation with a non-empty left part is non-empty. -/
theorem str_append_ne_left {a : String} (b : String) (h : a ≠ "") : a ++ b ≠ "" := by
  intro hc
  have hl := congrArg String.length hc
  rw [String.length_append] at hl
  exact h (eq_empty_of_length_zero (Nat.eq_zero_of_add_eq_zero_right hl))

/-- A concatenation with a non-empty right part is non-empty. -/
theorem str_append_ne_right (a : String) {b : String} (h : b ≠ "") : a ++ b ≠ "" := by
  intro hc
  have hl := congrArg String.length hc
  rw [String.length_append] at hl
  exact h (eq_empty_of_length_zero (Nat.eq_zero_of_add_eq_zero_left hl))

/-- The time-range table only ever returns canonical tokens. -/
theorem timeRangeTable_mem (n : String) : timeRangeTable n ∈ canonicalTimeRanges := by
  unfold timeRangeTable
  split_ifs <;> decide

/-! ### Claim theorems -/

/-- Claim C1 (confirmed).  `search_preprocessor.py` imports `logging`,
`typing` names, `datetime`, `uuid` and `re` but never `time`, while the
first statement of both `validate_and_prepare_request` (line 52) and
`generate_search_queries` (line 103) evaluates `time.time()`.  Hence every
call to either method raises `NameError` regardless of its arguments, so no
request can be validated or have queries generated through this
component. -/
theorem c1_preprocessor_always_nameerror :
    (∀ (available : List (String × PersonaConfig)) (persona : String)
       (focus_areas : Option (List String)) (time_range : String)
       (correlation_id : Option String) (uuidStr : String),
       validate_and_prepare_request available persona focus_areas time_range
           correlation_id uuidStr =
         Except.error (PyError.nameError "time")) ∧
    (∀ prepared : PreparedRequest,
       generate_search_queries prepared = Except.error (PyError.nameError "time")) :=
  ⟨fun _ _ _ _ _ _ => rfl, fun _ => rfl⟩

/-- Claim C5, counterexample.  The claim covers both cited validators and
asserts that time-range validation never raises; but
`SearchRequestValidator.validate_time_range` (lines 466-493) raises
`ValueError` on the unknown value `"yesterday"` instead of degrading it to
`"30d"`. -/
theorem c5_static_validator_raises :
    validate_time_range_static "yesterday" =
      Except.error (PyError.valueError "Invalid time range: yesterday") := rfl

/-- Claim C5 (corrected).  The preprocessor path
(`SearchQueryPreprocessor._validate_time_range`) behaves as claimed: every
input yields a canonical token from {7d, 30d, 90d, 6m, 1y} via
case-insensitive matching, the synonyms week/month/quarter/year map to
7d/30d/90d/1y (so "Month" maps to "30d" and "1y" to "1y"), and unknown
values silently degrade to "30d".  The static
`SearchRequestValidator.validate_time_range`, however, raises on unknown
non-empty values; it only defaults the empty string and maps the same
synonyms. -/
theorem c5_time_range_validation :
    (∀ s : String, validate_time_range_pre s ∈ canonicalTimeRanges) ∧
    validate_time_range_pre "Month" = "30d" ∧
    validate_time_range_pre "1y" = "1y" ∧
    validate_time_range_pre " WEEK " = "7d" ∧
    validate_time_range_pre "Quarter" = "90d" ∧
    validate_time_range_pre "year" = "1y" ∧
    validate_time_range_pre "bogus" = "30d" ∧
    validate_time_range_static "" = Except.ok "30d" ∧
    validate_time_range_static "Month" = Except.ok "30d" :=
  ⟨fun s => timeRangeTable_mem (pyStrip (pyLower s)), by decide, by decide, by decide,
   by decide, by decide, by decide, rfl, rfl⟩

/-- The five built-in persona names, in the order of
`_get_default_config`. -/
def fiveBuiltinNames : List String :=
  ["devops_engineer", "software_engineer", "ai_engineer", "product_owner", "product_manager"]

/-- Claim C7, counterexample.  Loading *can* yield an empty registry and
can abort: a configuration file that exists and parses to an empty YAML
document yields a registry with no personas (no fallback is applied, since
`_load_config` only falls back when the file is absent or reading raises),
and a file parsing to a non-empty top-level list makes `_parse_personas`
raise `AttributeError`, which `__init__` does not catch. -/
theorem c7_empty_doc_empty_registry :
    loadRegistry (LoadSource.doc YamlDoc.ynull) = Except.ok [] ∧
    loadRegistry (LoadSource.doc YamlDoc.ylist) =
      Except.error (PyError.attributeError "list object has no attribute get") :=
  ⟨rfl, rfl⟩

/-- Claim C7 (corrected).  When the configuration file is absent, or when
opening/YAML-parsing it raises, loading falls back to exactly the five
built-in profiles devops_engineer, software_engineer, ai_engineer,
product_owner and product_manager.  But loading does not universally avoid
an empty registry: a file that parses successfully to a document without
persona entries yields an empty registry, and a non-mapping document makes
loading raise (see the counterexample). -/
theorem c7_builtin_fallback :
    registryNames (loadRegistry LoadSource.missing) = some fiveBuiltinNames ∧
    registryNames (loadRegistry LoadSource.raiseOnRead) = some fiveBuiltinNames := by
  constructor <;> rfl

/-- Claim C8, counterexample.  `analyze_response` with a missing (`None`)
metadata is not treated as an empty mapping: `_analyze_source_attribution`
evaluates `metadata.get("sources_summary")`, which raises
`AttributeError`. -/
theorem c8_none_metadata_raises :
    analyze_response "x" "devops_engineer" none =
      Except.error (PyError.attributeError "NoneType object has no attribute get") := rfl

/-- Claim C8 (corrected).  The analyzer returns a QualityScore for every
input text and persona whenever the metadata argument is a mapping —
including an empty one.  A missing or malformed (non-mapping) metadata is
*not* treated as an empty mapping: it makes `analyze_response` raise
`AttributeError` (see the counterexample). -/
theorem c8_analyzer_total_on_mapping :
    ∀ (response persona : String) (m : Meta),
      (analyze_response response persona (some m)).isOk = true :=
  fun _ _ _ => rfl

/-- Claim C9 (confirmed).  Query composition is deterministic: both the
configuration-driven primary prompt builder
(`_build_unified_search_query_from_config`) and the agent's working query
builder (`_build_working_search_query`) are pure functions of the persona,
its configuration, the focus areas, the time range and the search context —
they read no clock, randomness or mutable state — so two calls with
identical inputs produce byte-identical prompt text. -/
theorem c9_compose_deterministic :
    ∀ (persona : String) (pc : PersonaConfig) (focus_areas : List String)
      (time_range : String) (ctx : SearchContext),
      build_unified_search_query_from_config persona pc focus_areas time_range ctx =
          build_unified_search_query_from_config persona pc focus_areas time_range ctx ∧
        build_working_search_query persona (some pc) focus_areas time_range =
          build_working_search_query persona (some pc) focus_areas time_range :=
  fun _ _ _ _ _ => ⟨rfl, rfl⟩

/-- A chunk whose nested `event.payload.delta.text` is the *empty* string
while its `event.payload.content` carries `"hello"`. -/
def nestedEmptyTextChunk : Chunk :=
  Chunk.obj
    { event := OSlot.val
        { payload := OSlot.val
            { delta := OSlot.val { text := some (AVal.astr ""), content := none }
              content := some (AVal.astr "hello") } }
      delta := OSlot.missing
      content := none
      choices := none }

/-- Claim C4, counterexample.  On `nestedEmptyTextChunk` the code returns
the empty string — the nested `delta.text` probe returns its string with no
emptiness check (`if isinstance(content, str): return content`, line 348),
so the empty string wins and the later probes never run — whereas under the
claimed discipline (the first probe yielding a *non-empty* string wins,
`specExtractContent`) the `event.payload.content` probe would yield
`"hello"`. -/
theorem c4_empty_nested_text_shadows :
    extract_content_from_chunk nestedEmptyTextChunk = "" ∧
    specExtractContent nestedEmptyTextChunk = "hello" := ⟨rfl, rfl⟩

/-- Claim C4 (corrected).  Content extraction tries the shape probes in the
claimed fixed order, but the nested `event.payload.delta.text` probe
returns its string *even when empty or whitespace*, short-circuiting every
later probe (see the counterexample); the remaining probes each require a
string with non-whitespace content.  Extraction never raises — a chunk
matching no probe yields `""` — and in the streaming loop every observed
chunk increments `chunkCount` while only chunks with non-empty extracted
content increment `contentChunkCount`.  The three parts below state: the
nested-text probe wins with an arbitrary string (empty included) whatever
the rest of the chunk holds; a chunk matching no probe yields `""`; and the
two counters of the stream-consumption loop count exactly the observed
chunks and the chunks with non-empty content. -/
theorem c4_extraction_and_counting :
    (∀ (s : String) (dtcont plcont : Option AVal) (dl : OSlot DeltaObj)
       (cont : Option AVal) (ch : Option (List ChoiceObj)),
       extract_content_from_chunk
           (Chunk.obj
             { event := OSlot.val
                 { payload := OSlot.val
                     { delta := OSlot.val { text := some (AVal.astr s), content := dtcont }
                       content := plcont } }
               delta := dl
               content := cont
               choices := ch }) = s) ∧
    (∀ c : Chunk, matchesNoProbe c = true → extract_content_from_chunk c = "") ∧
    (∀ cs : List Chunk,
       (stream_consume cs).2.1 = cs.length ∧
       (stream_consume cs).2.2 =
         (cs.filter (fun c => extract_content_from_chunk c ≠ "")).length) := by
  refine ⟨fun _ _ _ _ _ _ => rfl, ?_, ?_⟩
  · intro c h
    cases c with
    | str s =>
      simp only [matchesNoProbe, decide_eq_true_eq] at h
      simp [extract_content_from_chunk, h]
    | obj o =>
      simp only [matchesNoProbe, Bool.and_eq_true, Option.isNone_iff_eq_none] at h
      obtain ⟨⟨⟨h1, h2⟩, h3⟩, h4⟩ := h
      simp [extract_content_from_chunk, h1, h2, h3, h4, Option.orElse]
  · intro cs
    induction cs with
    | nil => simp [stream_consume]
    | cons c rest ih =>
      by_cases hc : extract_content_from_chunk c ≠ ""
      · simp [stream_consume, hc, ih.1, ih.2]
      · simp [stream_consume, hc, ih.1, ih.2]

/-- Claim C4, witness: a chunk with no probed attribute at all is counted
but extracted as the empty string rather than raising. -/
theorem c4_extraction_witness :
    matchesNoProbe (Chunk.obj {}) = true ∧
    extract_content_from_chunk (Chunk.obj {}) = "" :=
  ⟨by decide, c4_extraction_and_counting.2.1 (Chunk.obj {}) (by decide)⟩

/-- The collection loop of the daily-brief transform can add at most one
bullet per line and stops as soon as three exist. -/
theorem daily_brief_bullets_go_length_le (ls : List String) :
    ∀ acc : List String, acc.length ≤ 2 → (daily_brief_bullets_go ls acc).length ≤ 3 := by
  induction ls with
  | nil =>
    intro acc h
    simp only [daily_brief_bullets_go, List.length_reverse]
    omega
  | cons l rest ih =>
    intro acc h
    simp only [daily_brief_bullets_go]
    split_ifs with hl hlen hlen
    · simp only [List.length_reverse, List.length_cons]
      omega
    · refine ih _ ?_
      simp only [List.length_cons] at hlen ⊢
      omega
    · simp only [List.length_reverse]
      omega
    · exact ih _ h

/-- Claim C10 (confirmed).  The daily-brief transform is a total function
of the raw input text (this embedding terminates on every string, matching
the source's single bounded loop) and always renders a non-empty brief
containing at most 3 numbered bullets, whatever the number of input
lines. -/
theorem c10_daily_brief_at_most_three :
    ∀ (response persona today : String) (pc : Option PersonaConfig)
      (fas : Option (List String)),
      (daily_brief_bullets response).length ≤ 3 ∧
      transform_to_daily_brief_format response persona pc fas today ≠ "" := by
  intro response persona today pc fas
  refine ⟨daily_brief_bullets_go_length_le _ _ (by simp), ?_⟩
  simp only [transform_to_daily_brief_format]
  apply str_append_ne_right
  apply str_append_ne_right
  decide

/-- Replacing the value at key `k` in place leaves the key sequence of an
association list unchanged. -/
theorem keys_replace (m : List (String × PersonaConfig)) (k : String) (v : PersonaConfig) :
    ((m.map (fun e => if e.1 = k then (k, v) else e)).map Prod.fst) = m.map Prod.fst := by
  induction m with
  | nil => rfl
  | cons e rest ih =>
    by_cases he : e.1 = k
    · simp [he, ih]
    · simp [he, ih]

/-- Key membership after a Python-dict assignment. -/
theorem mem_keys_dictInsert (m : List (String × PersonaConfig)) (k : String)
    (v : PersonaConfig) (j : String) :
    j ∈ (dictInsert m k v).map Prod.fst ↔ j ∈ m.map Prod.fst ∨ j = k := by
  unfold dictInsert
  by_cases h : (m.map Prod.fst).contains k
  · have hk : k ∈ m.map Prod.fst := by simpa using h
    rw [if_pos h, keys_replace]
    constructor
    · exact fun hj => Or.inl hj
    · rintro (hj | rfl)
      · exact hj
      · exact hk
  · rw [if_neg h]
    simp

/-- Key membership after folding the `_parse_personas` assignments of a
whole persona mapping over an existing registry: a key is present afterwards
iff it was present before or is defined by the new mapping. -/
theorem mem_keys_parse_fold (newl : List (String × PersonaData)) :
    ∀ (st : List (String × PersonaConfig)) (j : String),
      j ∈ ((newl.foldl (fun st e => dictInsert st e.1 (parsePersona e.1 e.2)) st).map Prod.fst)
        ↔ j ∈ st.map Prod.fst ∨ j ∈ newl.map Prod.fst := by
  induction newl with
  | nil => simp
  | cons e rest ih =>
    intro st j
    simp only [List.foldl_cons]
    rw [ih, mem_keys_dictInsert]
    simp only [List.map_cons, List.mem_cons]
    tauto

/-- The built-in `alpha` fixture for the reload counterexample. -/
def alphaPersonaData : PersonaData := { display_name := some "Alpha" }

/-- The built-in `beta` fixture for the reload counterexample. -/
def betaPersonaData : PersonaData := { display_name := some "Beta" }

/-- Claim C6, counterexample.  Reloading a registry that holds only
`alpha` from a source that defines only `beta` leaves *both* `alpha` and
`beta` retrievable: `_parse_personas` assigns the new personas into the
existing dict without clearing it, so `alpha` survives even though the new
source does not define it — the registry is not replaced by exactly the
newly loaded set. -/
theorem c6_stale_persona_survives_reload :
    (reload_config (LoadSource.doc (YamlDoc.ymap (some [("beta", betaPersonaData)])))
        [("alpha", parsePersona "alpha" alphaPersonaData)]).2.map Prod.fst =
      ["alpha", "beta"] ∧
    "alpha" ∉ ([("beta", betaPersonaData)].map Prod.fst) := by
  refine ⟨?_, ?_⟩ <;> decide

/-- Claim C6 (corrected).  `reload_config` does not atomically replace the
registry: `_parse_personas` merges the newly loaded personas into the
existing dict (`self.personas[name] = config` without clearing), so after
a successful reload a persona name is retrievable iff it was retrievable
before *or* is defined by the new source — profiles from the previous
registry survive even when the new source does not redefine them.  The
reload reports success (`True`), and the before/after profile counts are
only logged, not returned. -/
theorem c6_reload_merges (pdl : List (String × PersonaData))
    (st : List (String × PersonaConfig)) (j : String) :
    (reload_config (LoadSource.doc (YamlDoc.ymap (some pdl))) st).1 = true ∧
    (j ∈ ((reload_config (LoadSource.doc (YamlDoc.ymap (some pdl))) st).2.map Prod.fst) ↔
      j ∈ st.map Prod.fst ∨ j ∈ pdl.map Prod.fst) := by
  refine ⟨rfl, ?_⟩
  simp only [reload_config, load_config, parse_personas, Option.getD]
  exact mem_keys_parse_fold pdl st j

/-- The concatenated extracted content of a timed chunk sequence, in
arrival order. -/
def streamTextOf : List (ℚ × Chunk) → String
  | [] => ""
  | x :: xs => extract_content_from_chunk x.2 ++ streamTextOf xs

/-- The number of chunks of a timed sequence with non-empty extracted
content. -/
def streamContentCountOf : List (ℚ × Chunk) → Nat
  | [] => 0
  | x :: xs =>
    (if extract_content_from_chunk x.2 ≠ "" then 1 else 0) + streamContentCountOf xs

/-- General form of the timeout behaviour of the `_execute_search_sync`
loop, for an arbitrary accumulator state. -/
theorem search_stream_loop_late_general (tmo t : ℚ) (c : Chunk)
    (post : List (ℚ × Chunk)) (ht : tmo < t) :
    ∀ (pre : List (ℚ × Chunk)) (acc : String) (cc cch : Nat),
      (∀ x ∈ pre, x.1 ≤ tmo) →
      search_stream_loop tmo (pre ++ (t, c) :: post) acc cc cch =
        (acc ++ streamTextOf pre, cc + pre.length + 1, cch + streamContentCountOf pre, true) := by
  intro pre
  induction pre with
  | nil =>
    intro acc cc cch _
    simp only [List.nil_append, search_stream_loop, streamTextOf, streamContentCountOf]
    rw [if_pos ht, String.append_empty]
    simp
  | cons p rest ih =>
    intro acc cc cch hpre
    obtain ⟨pt, pc⟩ := p
    have hpt : pt ≤ tmo := hpre (pt, pc) (by simp)
    simp only [List.cons_append, search_stream_loop, List.append_eq]
    rw [if_neg (not_lt.mpr hpt)]
    by_cases hcont : extract_content_from_chunk pc ≠ ""
    · rw [if_pos hcont, ih _ _ _ (fun x hx => hpre x (List.mem_cons_of_mem _ hx))]
      simp [streamTextOf, streamContentCountOf, hcont, String.append_assoc]
      omega
    · rw [if_neg hcont, ih _ _ _ (fun x hx => hpre x (List.mem_cons_of_mem _ hx))]
      have hempty : extract_content_from_chunk pc = "" := by
        by_contra hne
        exact hcont hne
      simp [streamTextOf, streamContentCountOf, hempty, String.empty_append]
      omega

/-- Claim C3 (corrected).  In `_execute_search_sync`, the deadline clock is
checked after a chunk is received and counted but *before* its content is
processed: when a chunk arrives past the timeout, its content is not
extracted, no later chunk is consumed, and the partial text accumulated
from the earlier chunks is kept, the loop recording the deadline break
internally.  However, the claim's final part fails: the finalized result
does not report `timedOut = true` — the returned value is the bare
accumulated text (or a no-content message), and the break flag is only
logged and then discarded (see the counterexample).  The wall-clock bound
("returns within ~10 seconds") lies outside this logical-time model, in
which consumption provably stops at the first late chunk. -/
theorem c3_timeout_stops_consumption (tmo t : ℚ) (c : Chunk)
    (pre post : List (ℚ × Chunk)) (hpre : ∀ x ∈ pre, x.1 ≤ tmo) (ht : tmo < t) :
    search_stream_loop tmo (pre ++ (t, c) :: post) "" 0 0 =
      (streamTextOf pre, pre.length + 1, streamContentCountOf pre, true) := by
  rw [search_stream_loop_late_general tmo t c post ht pre "" 0 0 hpre,
    String.empty_append]
  simp

/-- Claim C3, witness: with a 10-second timeout, a first chunk at 1s
carrying text and a second chunk at 11s followed by an endless tail, the
loop keeps the first chunk's text, counts the late chunk without extracting
it, consumes nothing further, and flags the deadline break. -/
theorem c3_timeout_witness :
    (∀ x ∈ [((1 : ℚ), Chunk.str "partial ")], x.1 ≤ (10 : ℚ)) ∧
    ((10 : ℚ) < 11) ∧
    search_stream_loop 10
        ([((1 : ℚ), Chunk.str "partial ")] ++
          ((11 : ℚ), Chunk.str "late") :: [((12 : ℚ), Chunk.str "never consumed")]) "" 0 0 =
      (streamTextOf [((1 : ℚ), Chunk.str "partial ")],
        [((1 : ℚ), Chunk.str "partial ")].length + 1,
        streamContentCountOf [((1 : ℚ), Chunk.str "partial ")], true) :=
  ⟨by decide, by decide,
   c3_timeout_stops_consumption 10 11 (Chunk.str "late")
     [((1 : ℚ), Chunk.str "partial ")] [((12 : ℚ), Chunk.str "never consumed")]
     (by decide) (by decide)⟩

/-- Claim C3, counterexample.  A run that times out after accumulating
`"partial "` returns *exactly the same* finalized result as a run of a
source that simply ends after the same first chunk, although the first run
broke on the deadline and the second did not: the finalized result of
`_execute_search_sync` is a bare string carrying no `timedOut` report, so
the claim that the finalized result reports `timedOut = true` is false. -/
theorem c3_no_timedout_report :
    execute_search_sync
        (Except.ok [((1 : ℚ), Chunk.str "partial "), ((11 : ℚ), Chunk.str "late")]) 10 =
      execute_search_sync (Except.ok [((1 : ℚ), Chunk.str "partial ")]) 10 ∧
    (search_stream_loop 10 [((1 : ℚ), Chunk.str "partial "), ((11 : ℚ), Chunk.str "late")]
        "" 0 0).2.2.2 = true ∧
    (search_stream_loop 10 [((1 : ℚ), Chunk.str "partial ")] "" 0 0).2.2.2 = false := by
  refine ⟨?_, ?_, ?_⟩ <;> decide

/-- `_format_response` never renders an empty string: the no-results branch
is a fixed non-empty diagnostic template, and the normal branch always ends
with a non-empty footer. -/
theorem format_response_ne_empty (r p : String) (pc : Option PersonaConfig)
    (fas : List String) (ts : String) : format_response r p pc fas ts ≠ "" := by
  unfold format_response
  split
  · unfold search_results_unavailable_template
    exact str_append_ne_right _ (by decide)
  · simp only [add_headers_and_structure]
    apply str_append_ne_right
    apply str_append_ne_left
    exact str_append_ne_right _ (by decide)

/-- The environment of the C2 counterexample: persona-config loading and
the streaming call both raise. -/
def c2FailEnv : AgentEnv :=
  { personaCfg := Except.error "config unavailable"
    stream := Except.error "Connection refused"
    uuidStr := "uuid-0001"
    nowStr := "2026-10-12 00:00:00 UTC"
    elapsed := 2 }

/-- Claim C2, counterexample.  When the streaming call raises, the claim
requires the returned record to carry an explicit error field; but
`_execute_search_sync` catches the exception and returns the failure text
as the result *string*, so `search_ai_info` takes its success path: the
record's `error` field is absent (`none`) and the failure is only embedded
in the formatted response text (it is even reported as
`response_available = true`). -/
theorem c2_stream_failure_no_error_field :
    c2FailEnv.stream = Except.error "Connection refused" ∧
    (search_ai_info c2FailEnv 60 "devops_engineer" none "30d"
        (some "cid-12345678")).error = none ∧
    (search_ai_info c2FailEnv 60 "devops_engineer" none "30d"
        (some "cid-12345678")).formatted_response =
      add_headers_and_structure "Search execution failed: Connection refused"
        "devops_engineer" none ["AI developments", "technology trends"]
        "2026-10-12 00:00:00 UTC" ∧
    (search_ai_info c2FailEnv 60 "devops_engineer" none "30d"
        (some "cid-12345678")).response_available = some true :=
  ⟨rfl, rfl, rfl, rfl⟩

/-- Claim C2 (corrected).  For every persona, focus-area list, time range,
correlation id and every outcome of config loading and of the streaming
call, the top-level `search_ai_info` never propagates an exception: it
always returns a record whose `formatted_response` is a non-empty, readable
report.  However, a streaming-phase failure does *not* put an explicit
`error` field on the record: `_execute_search_sync` converts the exception
into the response text, so the success-shaped record (with `error` absent)
is returned; the `error` field is reserved for exceptions escaping the
pipeline itself, which none of the modelled failure modes reach. -/
theorem c2_search_never_propagates :
    ∀ (env : AgentEnv) (timeout : ℚ) (persona : String)
      (focus_areas : Option (List String)) (time_range : String)
      (correlation_id : Option String),
      (search_ai_info env timeout persona focus_areas time_range
          correlation_id).formatted_response ≠ "" ∧
      (search_ai_info env timeout persona focus_areas time_range
          correlation_id).error = none := by
  intro env tmo p fas tr cid
  obtain ⟨pcfg, stream, u, now, el⟩ := env
  cases pcfg with
  | ok pc =>
    exact ⟨format_response_ne_empty _ _ _ _ _, rfl⟩
  | error e =>
    exact ⟨format_response_ne_empty _ _ _ _ _, rfl⟩

end SyncAI
